import Mathlib

set_option maxHeartbeats 1000000

/-!
Shallow embedding of the session/profile bootstrapper of the gawd repository
(src/contexts/AuthProvider.tsx, the Navigation component of the App file
src/unnamed/part_000, the AuthProvider variant src/unnamed/part_001 and the
CompleteProfileScreen src/unnamed/part_005), together with proofs settling
the frozen claims about it.

JavaScript truthiness is modelled explicitly: a nullable string field is
truthy iff it is present and non-empty, a nullable boolean iff it is
present and true.
-/

/-- Truthiness of a nullable JS string: `!!s` is false for `null`/`undefined`
and for the empty string. -/
def jsTruthyStr : Option String → Bool
  | none => false
  | some s => !(s = "")

/-- Truthiness of a nullable JS boolean: `!!b` is false for `null`/`undefined`. -/
def jsTruthyBool : Option Bool → Bool
  | none => false
  | some b => b

/-- The Profile record of src/contexts/AuthProvider.tsx (lines 8-15):
id, nullable first and last name, tri-state completed flag, optional
updated timestamp. -/
structure Profile where
  id : String
  first_name : Option String
  last_name : Option String
  completed_profile : Option Bool
  updated_at : Option String
deriving Repr, DecidableEq

/-- Source `const hasCompletedProfile = !!profile?.completed_profile`
(src/unnamed/part_000 line 96). -/
def hasCompletedProfile (p : Option Profile) : Bool :=
  match p with
  | none => false
  | some prof => jsTruthyBool prof.completed_profile

/-- Source `const hasFirstLastName = !!profile?.first_name && !!profile?.last_name`
(src/unnamed/part_000 line 97). -/
def hasFirstLastName (p : Option Profile) : Bool :=
  match p with
  | none => false
  | some prof => jsTruthyStr prof.first_name && jsTruthyStr prof.last_name

/-- Source `const isProfileComplete = hasCompletedProfile || hasFirstLastName ||
hasCompletedProfileBefore || loadingTimeout` (src/unnamed/part_000 line 98). -/
def isProfileComplete (p : Option Profile)
    (hasCompletedProfileBefore loadingTimeout : Bool) : Bool :=
  hasCompletedProfile p || hasFirstLastName p || hasCompletedProfileBefore || loadingTimeout

/-- Whether `pat` occurs at the head of `s`, on character lists. -/
def charsStartWith : List Char → List Char → Bool
  | _, [] => true
  | [], _ :: _ => false
  | a :: as, b :: bs => (a == b) && charsStartWith as bs

/-- Whether `pat` occurs anywhere in `s`, on character lists. -/
def charsContain : List Char → List Char → Bool
  | [], pat => pat.isEmpty
  | a :: as, pat => charsStartWith (a :: as) pat || charsContain as pat

/-- JS `s.includes(pat)`: the pattern occurs somewhere in `s`. -/
def includesSubstr (s pat : String) : Bool :=
  charsContain s.data pat.data

/-- A supabase error object: `message` and `code` fields as inspected by
fetchProfile (src/contexts/AuthProvider.tsx lines 77-78, 108). -/
structure SbError where
  message : String
  code : String
deriving Repr, DecidableEq

/-- Result of the primary profile query `select id, first_name, last_name,
completed_profile, updated_at` destructured as `{ data, error, status }`
(src/contexts/AuthProvider.tsx line 68). -/
structure QueryRes where
  data : Option Profile
  error : Option SbError
  status : Nat
deriving Repr, DecidableEq

/-- A row returned by the fallback query, which selects only
`id, first_name, last_name, updated_at` (src/contexts/AuthProvider.tsx
line 102). -/
structure FBRow where
  id : String
  first_name : Option String
  last_name : Option String
  updated_at : Option String
deriving Repr, DecidableEq

/-- Result of the fallback query destructured as `{ data, error }`
(src/contexts/AuthProvider.tsx line 106). -/
structure FBRes where
  data : Option FBRow
  error : Option SbError
deriving Repr, DecidableEq

/-- Environment of one fetchProfile call: how long the primary query and the
fallback query take to settle (`none` = never settles) and what they return. -/
structure FetchEnv where
  qTime : Option Nat
  qRes : QueryRes
  fbTime : Option Nat
  fbRes : FBRes
deriving Repr, DecidableEq

/-- The primary query wins its race against the 2000ms timeout timer iff it
settles strictly before 2000ms (src/contexts/AuthProvider.tsx lines 50-73). -/
def primaryWins (e : FetchEnv) : Bool :=
  match e.qTime with
  | some t => t < 2000
  | none => false

/-- Source lines 113-118: the fallback result is spread and
`completed_profile` is synthesized as `!!(first_name && last_name)`. -/
def profileFromFallback (r : FBRow) : Profile :=
  { id := r.id
    first_name := r.first_name
    last_name := r.last_name
    completed_profile := some (jsTruthyStr r.first_name && jsTruthyStr r.last_name)
    updated_at := r.updated_at }

/-- The primary query failed with a schema-mismatch error: it settled within
budget, carried an error with status other than 406, and the error message
mentions the completed_profile column (src/contexts/AuthProvider.tsx
lines 77-81). -/
def schemaMismatch (e : FetchEnv) : Bool :=
  primaryWins e &&
    (match e.qRes.error with
     | some err => (e.qRes.status != 406) && includesSubstr err.message "completed_profile"
     | none => false)

/-- Whether the fallback query is issued: exactly on a schema-mismatch error
(src/contexts/AuthProvider.tsx lines 95-106). -/
def fallbackRan (e : FetchEnv) : Bool := schemaMismatch e

/-- Outcome of the fallback path once entered: `none` when the (un-raced)
fallback query never settles, otherwise the duration of the fallback await
together with the profile value written, per lines 106-123: an error with
code other than 406 gives null, a data row gives the synthesized profile,
otherwise null. -/
def fallbackOutcome (e : FetchEnv) : Option (Nat × Option Profile) :=
  match e.fbTime with
  | none => none
  | some ft =>
    match e.fbRes.error with
    | some err =>
      if err.code != "406" then some (ft, none)
      else
        match e.fbRes.data with
        | some r => some (ft, some (profileFromFallback r))
        | none => some (ft, none)
    | none =>
      match e.fbRes.data with
      | some r => some (ft, some (profileFromFallback r))
      | none => some (ft, none)

/-- One fetchProfile call started at absolute time `t0`: `none` when the call
hangs (only possible inside the un-raced fallback await), otherwise the
absolute time at which it finishes together with the profile value it writes.
Mirrors src/contexts/AuthProvider.tsx lines 49-141: a raced timeout at
2000ms writes null; an error with status 406 or absent error falls through
to the data check; a schema-mismatch error enters the fallback. -/
def fetchRunCore (t0 : Nat) (e : FetchEnv) : Option (Nat × Option Profile) :=
  match e.qTime with
  | some qt =>
    if qt < 2000 then
      match e.qRes.error with
      | some err =>
        if e.qRes.status != 406 then
          if includesSubstr err.message "completed_profile" then
            match fallbackOutcome e with
            | none => none
            | some (ft, p) => some (t0 + qt + ft, p)
          else some (t0 + qt, none)
        else
          match e.qRes.data with
          | some d => some (t0 + qt, some d)
          | none => some (t0 + qt, none)
      | none =>
        match e.qRes.data with
        | some d => some (t0 + qt, some d)
        | none => some (t0 + qt, none)
    else some (t0 + 2000, none)
  | none => some (t0 + 2000, none)

/-- The profile value a completed fetchProfile call writes, `none` (outer)
when the call never completes. -/
def fetchProfileResult (e : FetchEnv) : Option (Option Profile) :=
  (fetchRunCore 0 e).map (·.2)

/-- A session issued by the identity service; the bootstrapper only ever
inspects `session.user.id`. -/
structure Session where
  userId : String
deriving Repr, DecidableEq

/-- A single state write performed by the bootstrapper (one of the setState
calls of src/contexts/AuthProvider.tsx). -/
inductive Write where
  | loading (b : Bool)
  | profileLoading (b : Bool)
  | session (s : Option Session)
  | user (u : Option String)
  | profile (p : Option Profile)
  | initErr (e : Option String)
deriving Repr, DecidableEq

/-- The provider's state: initial values from the useState calls of
src/contexts/AuthProvider.tsx lines 32-37 (loading starts true, everything
else empty). -/
structure AuthState where
  loading : Bool := true
  profileLoading : Bool := false
  session : Option Session := none
  user : Option String := none
  profile : Option Profile := none
  initErr : Option String := none
deriving Repr, DecidableEq

/-- Apply one state write. -/
def applyWrite (s : AuthState) : Write → AuthState
  | .loading b => { s with loading := b }
  | .profileLoading b => { s with profileLoading := b }
  | .session x => { s with session := x }
  | .user u => { s with user := u }
  | .profile p => { s with profile := p }
  | .initErr e => { s with initErr := e }

/-- State after applying, in order, all writes stamped at or before time `t`. -/
def stateAt (ws : List (Nat × Write)) (t : Nat) : AuthState :=
  (ws.filter (fun w => w.1 ≤ t)).foldl (fun s w => applyWrite s w.2) {}

/-- Merge two chronologically sorted write lists, with explicit fuel so the
recursion is structural. -/
def mergeFuel : Nat → List (Nat × Write) → List (Nat × Write) → List (Nat × Write)
  | 0, xs, ys => xs ++ ys
  | _ + 1, [], ys => ys
  | _ + 1, x :: xs, [] => x :: xs
  | n + 1, x :: xs, y :: ys =>
    if x.1 ≤ y.1 then x :: mergeFuel n xs (y :: ys)
    else y :: mergeFuel n (x :: xs) ys

/-- Merge two chronologically sorted write lists into one. -/
def mergeByTime (xs ys : List (Nat × Write)) : List (Nat × Write) :=
  mergeFuel (xs.length + ys.length) xs ys

/-- Source `const combinedLoading = loading || (session !== null && profileLoading)`
(src/contexts/AuthProvider.tsx line 550). -/
def combinedLoading (s : AuthState) : Bool :=
  s.loading || (s.session.isSome && s.profileLoading)

/-- The value handed to consumers through AuthContext.Provider
(src/contexts/AuthProvider.tsx line 556): session, user, profile and
combinedLoading. The initError state is not part of it. -/
structure ContextSnapshot where
  session : Option Session
  user : Option String
  profile : Option Profile
  loading : Bool
deriving Repr, DecidableEq

/-- Build the provider value from the current state, as on line 556. -/
def contextValue (s : AuthState) : ContextSnapshot :=
  { session := s.session, user := s.user, profile := s.profile
    loading := combinedLoading s }

/-- The writes of one fetchProfile call started at `t0`: profileLoading goes
true at the start (line 47); on completion the profile value and
profileLoading false are written (lines 84-140, finally block); a hung
fallback await produces no further writes. None of these writes is guarded
by the isMounted flag. -/
def fetchProfileRun (t0 : Nat) (e : FetchEnv) : List (Nat × Write) :=
  (t0, Write.profileLoading true) ::
    (match fetchRunCore t0 e with
     | some (tEnd, p) => [(tEnd, Write.profile p), (tEnd, Write.profileLoading false)]
     | none => [])

/-- Environment of one boot sequence: the platform, the reload flag and
last-known-user marker in local storage, and the settle time (`none` = never
settles) and result of each asynchronous external call made by
initializeAuth (src/contexts/AuthProvider.tsx lines 184-374). A result of
`none` for refreshSession / setSession means the call settled with an error. -/
structure BootEnv where
  web : Bool
  pageRefreshing : Bool
  lastUserId : Option String
  getSessionTime : Option Nat
  getSessionResult : Option Session
  refreshTime : Option Nat
  refreshResult : Option Session
  tokenTime : Option Nat
  tokenPresent : Bool
  setSessionTime : Option Nat
  setSessionResult : Option Session
  markerTime : Option Nat
  markerValue : Bool
  fetch : FetchEnv
deriving Repr, DecidableEq

/-- Output of one boot: the chronological state writes, the time at which the
failsafe timer was cleared by clearTimeout (if it was), the time at which
initializeAuth returned (`none` = the flow hung on an un-raced await),
whether the session-recovery block (lines 227-265) was entered, whether the
localStorage fast path (lines 308-329) was taken, and when the fast path's
background fetch was started. -/
structure BootOut where
  writes : List (Nat × Write)
  clearedAt : Option Nat
  finish : Option Nat
  recoveryAttempted : Bool
  fastPath : Bool
  bgFetchStart : Option Nat
deriving Repr, DecidableEq

/-- Phase 1 of the boot, session acquisition (lines 203-271): race getSession
against a 2000ms timer; on timeout the catch block treats the session as
absent without attempting recovery; recovery runs only when getSession
resolved with a null session while the web reload flag was set. Returns
`none` when an un-raced recovery await never settles, otherwise the time the
phase ends and the resulting session; the Bool records whether recovery was
attempted. -/
def sessionPhase (e : BootEnv) : Option (Nat × Option Session) × Bool :=
  let isRefreshing := e.web && e.pageRefreshing
  match e.getSessionTime with
  | some gt =>
    if gt < 2000 then
      match e.getSessionResult with
      | some s => (some (gt, some s), false)
      | none =>
        if isRefreshing && e.web then
          match e.lastUserId with
          | none => (some (gt, none), true)
          | some _ =>
            match e.refreshTime with
            | none => (none, true)
            | some rt =>
              match e.refreshResult with
              | some s => (some (gt + rt, some s), true)
              | none =>
                match e.tokenTime with
                | none => (none, true)
                | some tt =>
                  if e.tokenPresent then
                    match e.setSessionTime with
                    | none => (none, true)
                    | some st => (some (gt + rt + tt + st, e.setSessionResult), true)
                  else (some (gt + rt + tt, none), true)
        else (some (gt, none), false)
    else (some (2000, none), false)
  | none => (some (2000, none), false)

/-- The placeholder profile synthesized by the fast path
(src/contexts/AuthProvider.tsx lines 311-317). -/
def placeholderProfile (uid : String) : Profile :=
  { id := uid
    first_name := some "User"
    last_name := some "Name"
    completed_profile := some true
    updated_at := some "now" }

/-- The tail of the boot after the session phase decided there is a user and
the fast path was not taken: await fetchProfile, then the finally block
writes loading false and clears the failsafe (lines 337-373). A hung fetch
leaves the flow pending with the failsafe still armed. -/
def normalFetchTail (base : List (Nat × Write)) (ra : Bool) (t : Nat) (e : BootEnv) :
    BootOut :=
  let fw := fetchProfileRun t e.fetch
  match fetchRunCore t e.fetch with
  | none =>
    { writes := base ++ fw, clearedAt := none, finish := none
      recoveryAttempted := ra, fastPath := false, bgFetchStart := none }
  | some (tEnd, _) =>
    { writes := base ++ fw ++ [(tEnd, Write.loading false)], clearedAt := some tEnd
      finish := some tEnd, recoveryAttempted := ra, fastPath := false
      bgFetchStart := none }

/-- One run of initializeAuth (src/contexts/AuthProvider.tsx lines 184-374)
with the component mounted throughout. After the session phase, session and
user are written; with a user on the web platform the localStorage
completion marker is awaited (un-raced): if it reads true, a placeholder
profile is written, loading goes false, the failsafe is cleared and a real
fetch is scheduled 100ms later in the background (lines 301-329); otherwise,
and on non-web platforms, fetchProfile is awaited and the finally block
finishes the boot. -/
def bootRun (e : BootEnv) : BootOut :=
  match sessionPhase e with
  | (none, ra) =>
    { writes := [(0, Write.loading true)], clearedAt := none, finish := none
      recoveryAttempted := ra, fastPath := false, bgFetchStart := none }
  | (some (t1, sess), ra) =>
    let user := sess.map (·.userId)
    let base := [(0, Write.loading true), (t1, Write.session sess), (t1, Write.user user)]
    match user with
    | none =>
      { writes := base ++ [(t1, Write.loading false)], clearedAt := some t1
        finish := some t1, recoveryAttempted := ra, fastPath := false
        bgFetchStart := none }
    | some uid =>
      if e.web then
        match e.markerTime with
        | none =>
          { writes := base, clearedAt := none, finish := none
            recoveryAttempted := ra, fastPath := false, bgFetchStart := none }
        | some mt =>
          let t2 := t1 + mt
          if e.markerValue then
            { writes := base ++ [(t2, Write.profile (some (placeholderProfile uid))),
                (t2, Write.loading false)] ++ fetchProfileRun (t2 + 100) e.fetch
              clearedAt := some t2, finish := some t2, recoveryAttempted := ra
              fastPath := true, bgFetchStart := some (t2 + 100) }
          else normalFetchTail base ra t2 e
      else normalFetchTail base ra t1 e

/-- Whether the 3000ms failsafe timer fires: it does unless clearTimeout ran
strictly before 3000ms (src/contexts/AuthProvider.tsx lines 163-169, 321, 368). -/
def failsafeFires (b : BootOut) : Bool :=
  match b.clearedAt with
  | some c => 3000 ≤ c
  | none => true

/-- The writes of the failsafe callback: at 3000ms, if it was not cleared and
the loading flag is still true, it writes loading false and the
initialization error string (lines 163-169). -/
def failsafeWrites (b : BootOut) : List (Nat × Write) :=
  if failsafeFires b && (stateAt b.writes 2999).loading then
    [(3000, Write.loading false),
     (3000, Write.initErr (some "Initialization timed out. Please restart the app."))]
  else []

/-- Full chronological write trace of one boot, failsafe included. -/
def traceOf (e : BootEnv) : List (Nat × Write) :=
  mergeByTime (bootRun e).writes (failsafeWrites (bootRun e))

/-- The hypothesis of the failsafe claim: no asynchronous external operation
of the boot settles before time `t`. -/
def settlesNotBefore (o : Option Nat) (t : Nat) : Prop :=
  match o with
  | none => True
  | some x => t ≤ x

/-- No asynchronous external call of the boot environment completes within
`t` milliseconds of boot start. -/
def noOpCompletesBy (e : BootEnv) (t : Nat) : Prop :=
  settlesNotBefore e.getSessionTime t ∧ settlesNotBefore e.refreshTime t ∧
    settlesNotBefore e.tokenTime t ∧ settlesNotBefore e.setSessionTime t ∧
    settlesNotBefore e.markerTime t ∧ settlesNotBefore e.fetch.qTime t ∧
    settlesNotBefore e.fetch.fbTime t

/-- State seen by the auth-state-change listener and an in-flight profile
fetch: the provider fields it touches plus the listener effect's isMounted
flag (src/contexts/AuthProvider.tsx lines 393-534). -/
structure ListenerState where
  session : Option Session
  user : Option String
  profile : Option Profile
  profileLoading : Bool
  mounted : Bool
deriving Repr, DecidableEq

/-- Events interleaving an in-flight profile fetch with the listener:
`fetchStart` is the beginning of a fetch issued by the initial bootstrap or
by the manual refreshProfile (neither sets the listener's refreshInProgress
flag); `fetchComplete r` is that fetch's completion writing its result;
`signOutEvent` is the listener handling a SIGNED_OUT notification with a
null session while no listener-initiated refresh is in progress; `unmount`
is the effect teardown flipping isMounted. -/
inductive ListenerEvent where
  | fetchStart
  | fetchComplete (r : Option Profile)
  | signOutEvent
  | unmount
deriving Repr, DecidableEq

/-- One step of the interleaving. The isMounted guard is checked at the
listener callback's entry (line 450) — and nowhere inside fetchProfile,
whose setProfile / setProfileLoading calls (lines 47, 84-140) run
unconditionally. The sign-out branch clears session, user and profile
(lines 487-530). -/
def listenerStep (s : ListenerState) : ListenerEvent → ListenerState
  | .fetchStart => { s with profileLoading := true }
  | .fetchComplete r => { s with profile := r, profileLoading := false }
  | .signOutEvent =>
    if s.mounted then
      { s with session := none, user := none, profile := none, profileLoading := false }
    else s
  | .unmount => { s with mounted := false }

/-- Run a sequence of interleaved events. -/
def listenerRun (s : ListenerState) (es : List ListenerEvent) : ListenerState :=
  es.foldl listenerStep s

/-- Writes of a completed manual refresh: fetchProfile's completion sets the
profile to the fetched value and profileLoading to false
(src/contexts/AuthProvider.tsx lines 84-140; refreshProfile lines 145-156
simply awaits fetchProfile for the current user). -/
def applyCompletion (s : ListenerState) (p : Option Profile) : ListenerState :=
  { s with profile := p, profileLoading := false }

/-- The write at the start of a fetch: profileLoading goes true (line 47). -/
def applyStart (s : ListenerState) : ListenerState :=
  { s with profileLoading := true }

/-- State of the three refresh flows and the shared refreshInProgress flag of
the listener effect (src/contexts/AuthProvider.tsx lines 393-460): which
flows currently have a profile fetch in flight. -/
structure TriggerState where
  refreshInProgress : Bool
  bootstrapActive : Bool
  listenerActive : Bool
  focusActive : Bool
deriving Repr, DecidableEq

/-- Refresh triggers and completions. The initial bootstrap's fetch
(lines 337-345) neither checks nor sets refreshInProgress; the auth-change
callback (lines 455-460) and the focus handler (line 400, 408) both return
early when the flag is set and set it otherwise, clearing it when their
fetch completes. -/
inductive Trigger where
  | bootstrapFetch
  | bootstrapDone
  | authChange
  | authDone
  | focus
  | focusDone
deriving Repr, DecidableEq

/-- One trigger step, modelled from the guard placement in the source. -/
def triggerStep (s : TriggerState) : Trigger → TriggerState
  | .bootstrapFetch => { s with bootstrapActive := true }
  | .bootstrapDone => { s with bootstrapActive := false }
  | .authChange =>
    if s.refreshInProgress then s
    else { s with refreshInProgress := true, listenerActive := true }
  | .authDone =>
    if s.listenerActive then { s with listenerActive := false, refreshInProgress := false }
    else s
  | .focus =>
    if s.refreshInProgress then s
    else { s with refreshInProgress := true, focusActive := true }
  | .focusDone =>
    if s.focusActive then { s with focusActive := false, refreshInProgress := false }
    else s

/-- The all-idle initial trigger state. -/
def triggerInit : TriggerState :=
  { refreshInProgress := false, bootstrapActive := false
    listenerActive := false, focusActive := false }

/-- Run a sequence of triggers from the all-idle initial state. -/
def triggerRun (ts : List Trigger) : TriggerState :=
  ts.foldl triggerStep triggerInit

/-- Number of profile fetches concurrently in flight. -/
def activeFetches (s : TriggerState) : Nat :=
  (if s.bootstrapActive then 1 else 0) + (if s.listenerActive then 1 else 0) +
    (if s.focusActive then 1 else 0)

/-- The completion signal that gates storing the local marker:
`hasCompletedProfile || hasFirstLastName` (src/unnamed/part_000 line 124) —
note it does not include the timeout override. -/
def profileCompleteSignal (p : Option Profile) : Bool :=
  hasCompletedProfile p || hasFirstLastName p

/-- State for the local completion marker's life cycle: whether a session is
present, the per-user marker in device storage, the in-memory profile, and a
ghost history variable recording whether a complete backend profile was ever
observed (a fetched row satisfying the completion signal, or a profile
submission acknowledged by the backend). -/
structure MarkerState where
  session : Bool
  marker : Bool
  profile : Option Profile
  observedComplete : Bool
deriving Repr, DecidableEq

/-- Operations that touch the marker or the profile, modelled from the
sources cited for the marker: a fetch result arriving (fetchProfile writes
the backend row; the ghost variable records whether that row is complete),
the fast-path placeholder (guarded by the marker being set,
src/contexts/AuthProvider.tsx lines 307-317), storeProfileCompletion
(src/unnamed/part_000 lines 121-136, guarded by the completion signal on
the current profile), a profile submission acknowledged by the backend
(src/unnamed/part_005 lines 104-114: the marker is set only after one of
the write methods succeeded), and login / logout (the logout branch,
src/contexts/AuthProvider.tsx lines 525-530, clears the profile but never
removes the marker — no code in the repository deletes the marker key). -/
inductive MarkerEvent where
  | login
  | logout
  | fetchResult (r : Option Profile)
  | fastPathPlaceholder (uid : String)
  | storeCompletion
  | submitSuccess
deriving Repr, DecidableEq

/-- One marker-relevant step. -/
def markerStep (s : MarkerState) : MarkerEvent → MarkerState
  | .login => { s with session := true }
  | .logout => { s with session := false, profile := none }
  | .fetchResult r =>
    if s.session then
      { s with profile := r, observedComplete := s.observedComplete || profileCompleteSignal r }
    else s
  | .fastPathPlaceholder uid =>
    if s.session && s.marker then { s with profile := some (placeholderProfile uid) }
    else s
  | .storeCompletion =>
    if s.session && profileCompleteSignal s.profile then { s with marker := true }
    else s
  | .submitSuccess =>
    if s.session then { s with marker := true, observedComplete := true }
    else s

/-- Fresh-install initial state: no session, no marker, no profile, nothing
observed. -/
def markerInit : MarkerState :=
  { session := false, marker := false, profile := none, observedComplete := false }

/-- Run a sequence of marker events from the fresh-install state. -/
def markerRun (es : List MarkerEvent) : MarkerState :=
  es.foldl markerStep markerInit

/-- The context value of src/contexts/AuthProvider.tsx (lines 17-29):
session, user, profile, loading and the refreshProfile function (modelled
as a presence flag, since the default context carries null for it). -/
structure CtxValue where
  session : Option Session
  user : Option String
  profile : Option Profile
  loading : Bool
  refreshProfileSet : Bool
deriving Repr, DecidableEq

/-- The default value baked into createContext in
src/contexts/AuthProvider.tsx lines 23-29: everything null, loading true,
refreshProfile null. -/
def defaultCtxValue : CtxValue :=
  { session := none, user := none, profile := none, loading := true
    refreshProfileSet := false }

/-- The context value of the AuthProvider variant src/unnamed/part_001
(lines 18-27), which adds role, signOut and isAdmin. -/
structure CtxValueFull where
  session : Option Session
  user : Option String
  profile : Option Profile
  role : Option String
  loading : Bool
  refreshProfileSet : Bool
  signOutSet : Bool
  isAdmin : Bool
deriving Repr, DecidableEq

/-- The useAuth accessor of src/contexts/AuthProvider.tsx (lines 563-569):
`useContext(AuthContext)` with a context created with a default value, so a
call outside a provider yields the default and never throws. The argument
is the nearest provider's value, `none` when there is no provider above the
caller. -/
def useAuthDefaulting (provided : Option CtxValue) : Except String CtxValue :=
  Except.ok (provided.getD defaultCtxValue)

/-- The useAuth accessor of src/unnamed/part_001 (lines 635-641): the context
is created with `undefined`, and the accessor throws
"useAuth must be used within an AuthProvider" when no provider is above the
caller. -/
def useAuthThrowing (provided : Option CtxValueFull) : Except String CtxValueFull :=
  match provided with
  | none => Except.error "useAuth must be used within an AuthProvider"
  | some v => Except.ok v

/-- A fetch environment in which neither query ever settles. -/
def fetchNever : FetchEnv :=
  { qTime := none, qRes := { data := none, error := none, status := 0 }
    fbTime := none, fbRes := { data := none, error := none } }

/-- Boot environment for the failsafe claim's own hypothesis: no asynchronous
external operation ever settles. -/
def envNoOps : BootEnv :=
  { web := false, pageRefreshing := false, lastUserId := none
    getSessionTime := none, getSessionResult := none
    refreshTime := none, refreshResult := none
    tokenTime := none, tokenPresent := false
    setSessionTime := none, setSessionResult := none
    markerTime := none, markerValue := false, fetch := fetchNever }

/-- Boot environment in which getSession times out on a web reload where a
session refresh would have succeeded: reload flag set, last user id stored,
refreshSession settles quickly with a session. -/
def envTimeoutRecovery : BootEnv :=
  { web := true, pageRefreshing := true, lastUserId := some "user-A"
    getSessionTime := none, getSessionResult := none
    refreshTime := some 100, refreshResult := some { userId := "user-A" }
    tokenTime := none, tokenPresent := false
    setSessionTime := none, setSessionResult := none
    markerTime := some 10, markerValue := false, fetch := fetchNever }

/-- An incomplete profile row for user U. -/
def profIncompleteU : Profile :=
  { id := "U", first_name := none, last_name := none, completed_profile := some false
    updated_at := none }

/-- Boot environment on a native (non-web) platform for a user whose local
completion marker is set and whose profile query takes 1000ms. -/
def envNativeMarker : BootEnv :=
  { web := false, pageRefreshing := false, lastUserId := none
    getSessionTime := some 100, getSessionResult := some { userId := "U" }
    refreshTime := none, refreshResult := none
    tokenTime := none, tokenPresent := false
    setSessionTime := none, setSessionResult := none
    markerTime := some 10, markerValue := true
    fetch := { qTime := some 1000
               qRes := { data := some profIncompleteU, error := none, status := 200 }
               fbTime := none, fbRes := { data := none, error := none } } }

/-- The schema-mismatch error supabase reports when the completed_profile
column is missing. -/
def missingColumnErr : SbError :=
  { message := "column profiles.completed_profile does not exist", code := "42703" }

/-- A fallback row whose first name is the empty string: non-null, but falsy
in JavaScript. -/
def emptyFirstRow : FBRow :=
  { id := "u1", first_name := some "", last_name := some "Doe", updated_at := none }

/-- Fetch environment reproducing the schema-mismatch fallback on the
empty-first-name row. -/
def envEmptyFirst : FetchEnv :=
  { qTime := some 50
    qRes := { data := none, error := some missingColumnErr, status := 400 }
    fbTime := some 40
    fbRes := { data := some emptyFirstRow, error := none } }

/-- Parameterized fetch environment for the schema-mismatch fallback: primary
query settles in `qt` with error `err` and status `st`, fallback settles in
`ft` with row `row`. -/
def mismatchEnv (qt ft st : Nat) (err : SbError) (d : Option Profile) (row : FBRow) :
    FetchEnv :=
  { qTime := some qt
    qRes := { data := d, error := some err, status := st }
    fbTime := some ft
    fbRes := { data := some row, error := none } }

/-- Parameterized web boot environment with a session for `uid` arriving at
`g` and a positive completion marker read at `m`; the remaining fields are
free. -/
def fastPathEnv (g m : Nat) (uid : String) (f : FetchEnv) (pr : Bool)
    (lu : Option String) (rt tt st2 : Option Nat) (rr ssr : Option Session)
    (tp : Bool) : BootEnv :=
  { web := true, pageRefreshing := pr, lastUserId := lu
    getSessionTime := some g, getSessionResult := some { userId := uid }
    refreshTime := rt, refreshResult := rr
    tokenTime := tt, tokenPresent := tp
    setSessionTime := st2, setSessionResult := ssr
    markerTime := some m, markerValue := true, fetch := f }

/-- Parameterized web-reload boot environment in which getSession resolves at
`g` with an explicitly absent session, so the recovery block runs:
refreshSession settles at `rt` with `rr`; on refresh failure the stored
token (present iff `tp`, read at `tt`) is used with setSession (`st2`,
`ssr`). -/
def recoveryEnv (g rt : Nat) (uid : String) (rr : Option Session) (tt : Option Nat)
    (tp : Bool) (st2 : Option Nat) (ssr : Option Session) (mk : Option Nat)
    (mv : Bool) (f : FetchEnv) : BootEnv :=
  { web := true, pageRefreshing := true, lastUserId := some uid
    getSessionTime := some g, getSessionResult := none
    refreshTime := some rt, refreshResult := rr
    tokenTime := tt, tokenPresent := tp
    setSessionTime := st2, setSessionResult := ssr
    markerTime := mk, markerValue := mv, fetch := f }

/-- A complete profile row for user A. -/
def profA : Profile :=
  { id := "A", first_name := some "Ann", last_name := some "Lee"
    completed_profile := some true, updated_at := none }

/-- Listener state with user A logged in, component mounted, no fetch result
yet. -/
def listenerStartA : ListenerState :=
  { session := some { userId := "sA" }, user := some "A", profile := none
    profileLoading := false, mounted := true }

/-- A fetch environment that settles quickly and successfully with profile A. -/
def envFetchOkA : FetchEnv :=
  { qTime := some 50
    qRes := { data := some profA, error := none, status := 200 }
    fbTime := none, fbRes := { data := none, error := none } }

/-- The invariant of the local completion marker: whenever the marker (or a
profile passing the completion signal) is present, a complete backend
profile was observed at least once. -/
def markerSound (s : MarkerState) : Prop :=
  (s.marker = true → s.observedComplete = true) ∧
    (profileCompleteSignal s.profile = true → s.observedComplete = true)

/-- The part of the at-most-one-fetch discipline that the shared
refreshInProgress flag actually enforces: the listener's and the focus
handler's fetches each hold the flag, hence never run concurrently with
each other. -/
def guardedExclusion (s : TriggerState) : Prop :=
  (s.listenerActive = true → s.refreshInProgress = true) ∧
    (s.focusActive = true → s.refreshInProgress = true) ∧
    ¬(s.listenerActive = true ∧ s.focusActive = true)

/-- C1: the derived IsProfileComplete is true iff the profile's completed
flag is truthy, or the profile has (truthy) first and last names, or the
local completion marker is set, or the loading timeout elapsed; in
particular a profile with completed_profile = true is complete regardless
of its name fields, and the Jane/Doe profile with a null completed flag is
complete via the name fallback. -/
theorem isProfileComplete_characterization :
    (∀ (p : Option Profile) (before timeout : Bool),
      isProfileComplete p before timeout = true ↔
        (hasCompletedProfile p = true ∨ hasFirstLastName p = true ∨
          before = true ∨ timeout = true)) ∧
    (∀ (prof : Profile) (before timeout : Bool),
      prof.completed_profile = some true →
        isProfileComplete (some prof) before timeout = true) ∧
    isProfileComplete
      (some { id := "u", first_name := some "Jane", last_name := some "Doe"
              completed_profile := none, updated_at := none }) false false = true := by
  refine ⟨?_, ?_, by decide⟩
  · intro p before timeout
    simp [isProfileComplete, Bool.or_eq_true]
    tauto
  · intro prof before timeout h
    simp [isProfileComplete, hasCompletedProfile, jsTruthyBool, h]

/-- Witness for C1: a profile with only the completed flag set (no names) is
complete. -/
theorem isProfileComplete_characterization_witness :
    (Profile.mk "u2" none none (some true) none).completed_profile = some true ∧
    isProfileComplete (some (Profile.mk "u2" none none (some true) none)) false false =
      true :=
  ⟨rfl, isProfileComplete_characterization.2.1 _ false false rfl⟩

/-- C3 counterexample: on a schema-mismatch fallback returning the row with
first_name = "" and last_name = "Doe", both name fields are non-null, yet
the synthesized completed flag is false and IsProfileComplete is false —
the code uses JS truthiness, not a null check. -/
theorem fallback_nullcheck_counterexample :
    fallbackRan envEmptyFirst = true ∧
    fetchProfileResult envEmptyFirst = some (some (profileFromFallback emptyFirstRow)) ∧
    emptyFirstRow.first_name ≠ none ∧
    emptyFirstRow.last_name ≠ none ∧
    (profileFromFallback emptyFirstRow).completed_profile = some false ∧
    isProfileComplete (some (profileFromFallback emptyFirstRow)) false false = false := by
  refine ⟨by decide, by decide, by decide, by decide, by decide, by decide⟩

/-- C3 amended: on a schema-mismatch error mentioning the completed_profile
column (status other than 406), the fallback query is issued, the profile
is the fallback row with completed_profile synthesized as the conjunction
of the JS-truthiness (non-null and non-empty) of the two name fields, and
IsProfileComplete equals that same conjunction; the fetch completes
normally (no error escapes). -/
theorem schema_fallback_amended :
    ∀ (qt ft st : Nat) (err : SbError) (d : Option Profile) (row : FBRow),
      qt < 2000 →
      includesSubstr err.message "completed_profile" = true →
      st ≠ 406 →
      fallbackRan (mismatchEnv qt ft st err d row) = true ∧
      fetchProfileResult (mismatchEnv qt ft st err d row) =
        some (some (profileFromFallback row)) ∧
      (profileFromFallback row).completed_profile =
        some (jsTruthyStr row.first_name && jsTruthyStr row.last_name) ∧
      isProfileComplete (some (profileFromFallback row)) false false =
        (jsTruthyStr row.first_name && jsTruthyStr row.last_name) := by
  intro qt ft st err d row hqt hmsg hst
  have hst' : (st != 406) = true := by simp [bne, hst]
  refine ⟨?_, ?_, rfl, ?_⟩
  · simp [fallbackRan, schemaMismatch, primaryWins, mismatchEnv, hqt, hmsg, hst']
  · simp [fetchProfileResult, fetchRunCore, fallbackOutcome, mismatchEnv, hqt, hmsg, hst']
  · simp [isProfileComplete, hasCompletedProfile, hasFirstLastName, profileFromFallback,
      jsTruthyBool]

/-- Witness for C3's amended theorem, at the Jane/Doe fallback row. -/
theorem schema_fallback_amended_witness :
    (50 : Nat) < 2000 ∧
    includesSubstr missingColumnErr.message "completed_profile" = true ∧
    (400 : Nat) ≠ 406 ∧
    fetchProfileResult (mismatchEnv 50 40 400 missingColumnErr none
        (FBRow.mk "u9" (some "Jane") (some "Doe") none)) =
      some (some (profileFromFallback (FBRow.mk "u9" (some "Jane") (some "Doe") none))) :=
  ⟨by decide, by decide, by decide,
    (schema_fallback_amended 50 40 400 missingColumnErr none
      (FBRow.mk "u9" (some "Jane") (some "Doe") none)
      (by decide) (by decide) (by decide)).2.1⟩

/-- C7: a manual refresh is idempotent and safe against a concurrent fetch
for the same environment: two rapid refreshes (both interleavings) end in
the same state as a single refresh, and when two fetches complete the most
recently completed one's result is retained. -/
theorem refresh_idempotent_last_write_wins :
    ∀ (s : ListenerState) (e : FetchEnv) (p : Option Profile),
      fetchProfileResult e = some p →
      (applyCompletion (applyCompletion (applyStart (applyStart s)) p) p =
        applyCompletion (applyStart s) p) ∧
      (applyCompletion (applyStart (applyCompletion (applyStart s) p)) p =
        applyCompletion (applyStart s) p) ∧
      (∀ q : Option Profile, (applyCompletion (applyCompletion s q) p).profile = p) := by
  intro s e p _
  refine ⟨rfl, rfl, fun q => rfl⟩

/-- Witness for C7: the successful fetch of profile A. -/
theorem refresh_idempotent_last_write_wins_witness :
    fetchProfileResult envFetchOkA = some (some profA) ∧
    applyCompletion (applyCompletion (applyStart (applyStart listenerStartA))
        (some profA)) (some profA) =
      applyCompletion (applyStart listenerStartA) (some profA) :=
  ⟨by decide,
    (refresh_idempotent_last_write_wins listenerStartA envFetchOkA (some profA)
      (by decide)).1⟩

/-- C10 counterexample: the useAuth accessor of src/contexts/AuthProvider.tsx
called with no provider above it returns the built-in default context value
instead of throwing. -/
theorem useAuth_default_counterexample :
    useAuthDefaulting none = Except.ok defaultCtxValue := rfl

/-- C10 amended: only the accessor of the part_001 AuthProvider variant
throws outside a provider (and never inside one); the accessor of
src/contexts/AuthProvider.tsx never throws, returning the default context
value when no provider is present. -/
theorem useAuth_amended :
    useAuthThrowing none = Except.error "useAuth must be used within an AuthProvider" ∧
    (∀ v : CtxValueFull, useAuthThrowing (some v) = Except.ok v) ∧
    (∀ c : Option CtxValue, useAuthDefaulting c = Except.ok (c.getD defaultCtxValue)) := by
  refine ⟨rfl, fun v => rfl, fun c => rfl⟩

/-- C6 counterexample: a fetch started (by the bootstrap or the manual
refresh) before a sign-out event is handled completes afterwards and
overwrites the cleared profile state with its late result — user is gone,
yet the profile is back. -/
theorem late_fetch_overwrite_counterexample :
    listenerRun listenerStartA
      [ListenerEvent.fetchStart, ListenerEvent.signOutEvent,
        ListenerEvent.fetchComplete (some profA)] =
      { session := none, user := none, profile := some profA
        profileLoading := false, mounted := true } := by decide

/-- C6 amended: the is-still-active guard is checked at the listener
callback's entry (a sign-out received after teardown mutates nothing), but
not before every state mutation: a fetch completion writes the profile
unconditionally, even when unmounted, so a fetch in flight while a sign-out
is handled overwrites the cleared profile state when it completes. -/
theorem mount_guard_amended :
    (∀ s : ListenerState, s.mounted = false →
      listenerStep s ListenerEvent.signOutEvent = s) ∧
    (∀ (s : ListenerState) (r : Option Profile),
      (listenerStep s (ListenerEvent.fetchComplete r)).profile = r) ∧
    (∀ (s : ListenerState) (r : Option Profile), s.mounted = true →
      (listenerRun s [ListenerEvent.fetchStart, ListenerEvent.signOutEvent,
        ListenerEvent.fetchComplete r]).profile = r ∧
      (listenerRun s [ListenerEvent.fetchStart, ListenerEvent.signOutEvent,
        ListenerEvent.fetchComplete r]).user = none) := by
  refine ⟨?_, fun s r => rfl, ?_⟩
  · intro s h
    simp [listenerStep, h]
  · intro s r h
    simp [listenerRun, listenerStep, h]

/-- Witness for C6's amended theorem: the concrete sign-out race for user A,
and the entry guard on an unmounted state. -/
theorem mount_guard_amended_witness :
    ((listenerRun listenerStartA [ListenerEvent.fetchStart, ListenerEvent.signOutEvent,
        ListenerEvent.fetchComplete (some profA)]).profile = some profA ∧
      (listenerRun listenerStartA [ListenerEvent.fetchStart, ListenerEvent.signOutEvent,
        ListenerEvent.fetchComplete (some profA)]).user = none) ∧
    listenerStep { listenerStartA with mounted := false } ListenerEvent.signOutEvent =
      { listenerStartA with mounted := false } :=
  ⟨mount_guard_amended.2.2 listenerStartA (some profA) rfl,
    mount_guard_amended.1 { listenerStartA with mounted := false } rfl⟩

/-- C8 counterexample: the initial bootstrap's fetch does not take the shared
refreshInProgress flag, so an auth-change trigger arriving while it is in
flight starts a second concurrent fetch — two fetches are active at once. -/
theorem bootstrap_unguarded_counterexample :
    activeFetches (triggerRun [Trigger.bootstrapFetch, Trigger.authChange]) = 2 := by
  decide

/-- C8 amended: the shared refreshInProgress flag serializes only the
auth-change listener's and the focus handler's fetches — those two are
never active together, and a second guarded trigger arriving while the flag
is held is dropped without any state change; the initial bootstrap's fetch
is not covered by the flag. -/
theorem refresh_guard_amended :
    (∀ ts : List Trigger, guardedExclusion (triggerRun ts)) ∧
    (∀ s : TriggerState, s.refreshInProgress = true →
      triggerStep s Trigger.authChange = s ∧ triggerStep s Trigger.focus = s) := by
  constructor
  · have step : ∀ (s : TriggerState) (t : Trigger),
        guardedExclusion s → guardedExclusion (triggerStep s t) := by
      intro s t h
      obtain ⟨h1, h2, h3⟩ := h
      cases t <;> simp only [triggerStep, guardedExclusion] <;> (try split_ifs) <;>
        simp_all
    have run : ∀ (ts : List Trigger) (s : TriggerState),
        guardedExclusion s → guardedExclusion (ts.foldl triggerStep s) := by
      intro ts
      induction ts with
      | nil => intro s h; exact h
      | cons t ts ih => intro s h; exact ih _ (step s t h)
    intro ts
    exact run ts triggerInit (by simp [guardedExclusion, triggerInit])
  · intro s h
    constructor <;> simp [triggerStep, h]

/-- Witness for C8's amended theorem: the invariant on a concrete trace and a
dropped trigger on a concrete busy state. -/
theorem refresh_guard_amended_witness :
    guardedExclusion (triggerRun [Trigger.authChange, Trigger.focus]) ∧
    triggerStep (TriggerState.mk true false true false) Trigger.focus =
      TriggerState.mk true false true false :=
  ⟨refresh_guard_amended.1 [Trigger.authChange, Trigger.focus],
    (refresh_guard_amended.2 (TriggerState.mk true false true false) rfl).2⟩

/-- C9: in every reachable marker state, a set marker means a complete
backend profile was observed at least once (every operation that sets the
marker is guarded by the completion signal on the current profile or by an
acknowledged profile submission), and no operation ever clears the marker —
in particular logout does not. -/
theorem marker_invariant_sound :
    (∀ es : List MarkerEvent, markerSound (markerRun es)) ∧
    (∀ (s : MarkerState) (e : MarkerEvent), s.marker = true →
      (markerStep s e).marker = true) := by
  have step : ∀ (s : MarkerState) (e : MarkerEvent),
      markerSound s → markerSound (markerStep s e) := by
    intro s e h
    obtain ⟨h1, h2⟩ := h
    cases e with
    | login => exact ⟨h1, h2⟩
    | logout =>
      refine ⟨h1, ?_⟩
      simp [markerStep, profileCompleteSignal, hasCompletedProfile, hasFirstLastName]
    | fetchResult r =>
      simp only [markerStep]
      split_ifs <;> constructor <;> intro hx <;> simp_all
    | fastPathPlaceholder uid =>
      simp only [markerStep]
      split_ifs with hg
      · refine ⟨h1, fun _ => h1 ?_⟩
        exact (Bool.and_eq_true _ _ ▸ hg).2
      · exact ⟨h1, h2⟩
    | storeCompletion =>
      simp only [markerStep]
      split_ifs with hg
      · refine ⟨fun _ => h2 ?_, h2⟩
        exact (Bool.and_eq_true _ _ ▸ hg).2
      · exact ⟨h1, h2⟩
    | submitSuccess =>
      simp only [markerStep]
      split_ifs
      · exact ⟨fun _ => rfl, fun _ => rfl⟩
      · exact ⟨h1, h2⟩
  have run : ∀ (es : List MarkerEvent) (s : MarkerState),
      markerSound s → markerSound (es.foldl markerStep s) := by
    intro es
    induction es with
    | nil => intro s h; exact h
    | cons e es ih => intro s h; exact ih _ (step s e h)
  refine ⟨fun es => run es markerInit ?_, ?_⟩
  · exact ⟨by simp [markerInit], by simp [markerInit, profileCompleteSignal,
      hasCompletedProfile, hasFirstLastName]⟩
  · intro s e h
    cases e <;> simp only [markerStep] <;> (try split_ifs) <;> simp_all

/-- Witness for C9: a concrete trace — login, a complete fetch result, then
storeCompletion — reaches a state with the marker set and the observation
recorded, and a logout step does not clear a set marker. -/
theorem marker_invariant_sound_witness :
    markerSound (markerRun [MarkerEvent.login, MarkerEvent.fetchResult (some profA),
      MarkerEvent.storeCompletion]) ∧
    (markerStep (MarkerState.mk true true (some profA) true) MarkerEvent.logout).marker =
      true :=
  ⟨marker_invariant_sound.1 [MarkerEvent.login, MarkerEvent.fetchResult (some profA),
      MarkerEvent.storeCompletion],
    marker_invariant_sound.2 (MarkerState.mk true true (some profA) true)
      MarkerEvent.logout rfl⟩

/-- A completed fetch finishes no earlier than it started. -/
theorem fetchRunCore_time_ge (t0 : Nat) (e : FetchEnv) (t : Nat) (p : Option Profile)
    (h : fetchRunCore t0 e = some (t, p)) : t0 ≤ t := by
  unfold fetchRunCore at h
  repeat' split at h
  all_goals cases h
  all_goals omega

/-- The normal fetch tail preserves the recovery flag it is given. -/
theorem normalFetchTail_recovery (base : List (Nat × Write)) (ra : Bool) (t : Nat)
    (e : BootEnv) : (normalFetchTail base ra t e).recoveryAttempted = ra := by
  unfold normalFetchTail
  rcases fetchRunCore t e.fetch with _ | ⟨tEnd, q⟩ <;> rfl

/-- The normal fetch tail keeps every write of its base list. -/
theorem normalFetchTail_mem (base : List (Nat × Write)) (ra : Bool) (t : Nat)
    (e : BootEnv) (x : Nat × Write) (hx : x ∈ base) :
    x ∈ (normalFetchTail base ra t e).writes := by
  unfold normalFetchTail
  rcases fetchRunCore t e.fetch with _ | ⟨tEnd, q⟩ <;> simp [hx]

/-- The recoveryAttempted output of a boot is exactly the session phase's
recovery flag. -/
theorem bootRun_recovery_flag (e : BootEnv) :
    (bootRun e).recoveryAttempted = (sessionPhase e).2 := by
  unfold bootRun
  rcases hp : sessionPhase e with ⟨o, ra⟩
  rcases o with _ | ⟨t1, sess⟩
  · rfl
  · rcases sess with _ | s
    · rfl
    · by_cases hw : e.web = true
      · rcases e.markerTime with _ | mt
        · simp [hw]
        · by_cases hv : e.markerValue = true
          · simp [hw, hv]
          · simp only [hw, hv, Bool.false_eq_true, if_true, if_false]
            exact normalFetchTail_recovery _ _ _ _
      · simp only [hw, Bool.false_eq_true, if_false]
        exact normalFetchTail_recovery _ _ _ _

/-- When the session phase ends with no session at time `t1`, the boot writes
exactly: loading true at 0, null session and user at `t1`, loading false at
`t1`, clearing the failsafe at `t1`. -/
theorem bootRun_nouser (e : BootEnv) (t1 : Nat) (ra : Bool)
    (h : sessionPhase e = (some (t1, none), ra)) :
    bootRun e =
      { writes := [(0, Write.loading true), (t1, Write.session none),
          (t1, Write.user none), (t1, Write.loading false)]
        clearedAt := some t1, finish := some t1, recoveryAttempted := ra
        fastPath := false, bgFetchStart := none } := by
  unfold bootRun
  rw [h]
  rfl

/-- Whatever path the boot takes after its session phase, the session value
the phase produced is written at the phase's end time. -/
theorem bootRun_session_write (e : BootEnv) (t1 : Nat) (sess : Option Session) (ra : Bool)
    (h : sessionPhase e = (some (t1, sess), ra)) :
    (t1, Write.session sess) ∈ (bootRun e).writes := by
  unfold bootRun
  rw [h]
  rcases sess with _ | s
  · simp
  · by_cases hw : e.web = true
    · rcases e.markerTime with _ | mt
      · simp [hw]
      · by_cases hv : e.markerValue = true
        · simp [hw, hv]
        · simp only [hw, hv, Bool.false_eq_true, if_true, if_false]
          exact normalFetchTail_mem _ _ _ _ _ (by simp)
    · simp only [hw, Bool.false_eq_true, if_false]
      exact normalFetchTail_mem _ _ _ _ _ (by simp)

/-- C2 counterexample: in a boot where no asynchronous operation ever
settles (the claim's own hypothesis), the bootstrapper leaves loading at
2000ms through the getSession timeout, which clears the failsafe — the
failsafe never fires and no initialization error flag is recorded,
contradicting the claim that the failsafe timer performs the transition and
records a user-visible error flag. -/
theorem failsafe_claim_counterexample :
    noOpCompletesBy envNoOps 3000 ∧
    (stateAt (traceOf envNoOps) 3000).loading = false ∧
    (stateAt (traceOf envNoOps) 3000).initErr = none ∧
    failsafeFires (bootRun envNoOps) = false := by
  refine ⟨?_, by decide, by decide, by decide⟩
  simp [noOpCompletesBy, settlesNotBefore, envNoOps, fetchNever]

/-- C2 amended: if no operation completes within 3000ms of boot start, the
bootstrapper is nevertheless out of every loading state at 3000ms — but via
the inner 2000ms getSession timeout (the boot finishes at 2000ms, treating
the session as absent, with no recovery), which clears the failsafe timer;
the failsafe does not fire and no initialization error flag is recorded.
Moreover the error flag, when set, is not part of the context value handed
to consumers. -/
theorem failsafe_timeout_amended :
    ∀ e : BootEnv, noOpCompletesBy e 3000 →
      failsafeFires (bootRun e) = false ∧
      (bootRun e).finish = some 2000 ∧
      (bootRun e).recoveryAttempted = false ∧
      stateAt (traceOf e) 3000 =
        { loading := false, profileLoading := false, session := none, user := none
          profile := none, initErr := none } ∧
      combinedLoading (stateAt (traceOf e) 3000) = false ∧
      (∀ (s : AuthState) (msg : Option String),
        contextValue { s with initErr := msg } = contextValue s) := by
  intro e h
  obtain ⟨h1, -, -, -, -, -, -⟩ := h
  have hphase : sessionPhase e = (some (2000, none), false) := by
    unfold sessionPhase
    rcases hg : e.getSessionTime with _ | gt
    · simp
    · have hlt : ¬(gt < 2000) := by
        rw [hg] at h1
        simp only [settlesNotBefore] at h1
        omega
      simp [hlt]
  have hb := bootRun_nouser e 2000 false hphase
  refine ⟨?_, ?_, ?_, ?_, ?_, fun s msg => rfl⟩
  · rw [hb]; decide
  · rw [hb]
  · rw [hb]
  · simp only [traceOf]; rw [hb]; decide
  · simp only [traceOf]; rw [hb]; decide

/-- Witness for C2's amended theorem at the environment in which nothing
ever settles. -/
theorem failsafe_timeout_amended_witness :
    noOpCompletesBy envNoOps 3000 ∧ failsafeFires (bootRun envNoOps) = false ∧
      (bootRun envNoOps).finish = some 2000 :=
  have h : noOpCompletesBy envNoOps 3000 := by
    simp [noOpCompletesBy, settlesNotBefore, envNoOps, fetchNever]
  ⟨h, (failsafe_timeout_amended envNoOps h).1, (failsafe_timeout_amended envNoOps h).2.1⟩

/-- C4 counterexample: when getSession times out on a web reload with the
was-reloading flag set, a stored last user id, and a refreshSession call
that would have succeeded, the code still attempts no recovery — the catch
treats the session as absent and the boot ends logged out. -/
theorem recovery_on_timeout_counterexample :
    envTimeoutRecovery.web = true ∧
    envTimeoutRecovery.pageRefreshing = true ∧
    envTimeoutRecovery.lastUserId = some "user-A" ∧
    envTimeoutRecovery.refreshResult = some { userId := "user-A" } ∧
    (bootRun envTimeoutRecovery).recoveryAttempted = false ∧
    (stateAt (traceOf envTimeoutRecovery) 5000).session = none ∧
    (stateAt (traceOf envTimeoutRecovery) 5000).loading = false := by decide

/-- C4 amended: session recovery is attempted only when getSession resolves
within its 2000ms budget with an explicitly absent session on a web reload;
on a getSession timeout the session is treated as absent with no recovery
attempt and the boot reaches the logged-out ready state at 2000ms. When
recovery does run: a successful forced refresh yields its session; if the
refresh fails, a session rebuilt from the raw stored token yields that
session; if the token is absent every failure falls through to a null
session written at the phase's end, and the boot still finishes. -/
theorem session_recovery_amended :
    (∀ e : BootEnv, settlesNotBefore e.getSessionTime 2000 →
      (bootRun e).recoveryAttempted = false ∧
      sessionPhase e = (some (2000, none), false) ∧
      (bootRun e).finish = some 2000 ∧
      (stateAt (traceOf e) 2000).session = none ∧
      (stateAt (traceOf e) 2000).loading = false) ∧
    (∀ (g rt : Nat) (uid : String) (rr : Option Session) (tt : Option Nat) (tp : Bool)
        (st2 : Option Nat) (ssr : Option Session) (mk : Option Nat) (mv : Bool)
        (f : FetchEnv), g < 2000 →
      (bootRun (recoveryEnv g rt uid rr tt tp st2 ssr mk mv f)).recoveryAttempted =
        true) ∧
    (∀ (g rt : Nat) (uid : String) (s : Session) (tt : Option Nat) (tp : Bool)
        (st2 : Option Nat) (ssr : Option Session) (mk : Option Nat) (mv : Bool)
        (f : FetchEnv), g < 2000 →
      sessionPhase (recoveryEnv g rt uid (some s) tt tp st2 ssr mk mv f) =
        (some (g + rt, some s), true) ∧
      (g + rt, Write.session (some s)) ∈
        (bootRun (recoveryEnv g rt uid (some s) tt tp st2 ssr mk mv f)).writes) ∧
    (∀ (g rt tt2 st : Nat) (uid : String) (s : Session) (mk : Option Nat) (mv : Bool)
        (f : FetchEnv), g < 2000 →
      sessionPhase (recoveryEnv g rt uid none (some tt2) true (some st) (some s) mk mv f) =
        (some (g + rt + tt2 + st, some s), true)) ∧
    (∀ (g rt tt2 : Nat) (uid : String) (mk : Option Nat) (mv : Bool) (f : FetchEnv),
      g < 2000 →
      sessionPhase (recoveryEnv g rt uid none (some tt2) false none none mk mv f) =
        (some (g + rt + tt2, none), true) ∧
      (bootRun (recoveryEnv g rt uid none (some tt2) false none none mk mv f)).finish =
        some (g + rt + tt2) ∧
      (g + rt + tt2, Write.session none) ∈
        (bootRun (recoveryEnv g rt uid none (some tt2) false none none mk mv f)).writes) := by
  refine ⟨?_, ?_, ?_, ?_, ?_⟩
  · intro e h1
    have hphase : sessionPhase e = (some (2000, none), false) := by
      unfold sessionPhase
      rcases hg : e.getSessionTime with _ | gt
      · simp
      · have hlt : ¬(gt < 2000) := by
          rw [hg] at h1
          simp only [settlesNotBefore] at h1
          omega
        simp [hlt]
    have hb := bootRun_nouser e 2000 false hphase
    refine ⟨?_, hphase, ?_, ?_, ?_⟩
    · rw [hb]
    · rw [hb]
    · simp only [traceOf]; rw [hb]; decide
    · simp only [traceOf]; rw [hb]; decide
  · intro g rt uid rr tt tp st2 ssr mk mv f hg
    rw [bootRun_recovery_flag]
    unfold sessionPhase recoveryEnv
    simp only [hg, if_true, Bool.and_self]
    rcases rr with _ | s
    · rcases tt with _ | tt2
      · rfl
      · rcases tp with _ | _
        · rfl
        · rcases st2 with _ | st <;> rfl
    · rfl
  · intro g rt uid s tt tp st2 ssr mk mv f hg
    have hphase : sessionPhase (recoveryEnv g rt uid (some s) tt tp st2 ssr mk mv f) =
        (some (g + rt, some s), true) := by
      unfold sessionPhase recoveryEnv
      simp [hg]
    exact ⟨hphase, bootRun_session_write _ _ _ _ hphase⟩
  · intro g rt tt2 st uid s mk mv f hg
    unfold sessionPhase recoveryEnv
    simp [hg]
  · intro g rt tt2 uid mk mv f hg
    have hphase : sessionPhase (recoveryEnv g rt uid none (some tt2) false none none
        mk mv f) = (some (g + rt + tt2, none), true) := by
      unfold sessionPhase recoveryEnv
      simp [hg]
    have hb := bootRun_nouser _ _ _ hphase
    refine ⟨hphase, ?_, ?_⟩
    · rw [hb]
    · rw [hb]; simp

/-- Witness for C4's amended theorem: a timed-out getSession attempts no
recovery, and a resolved-absent session with a successful refresh yields
the refreshed session. -/
theorem session_recovery_amended_witness :
    settlesNotBefore envNoOps.getSessionTime 2000 ∧
    (bootRun envNoOps).recoveryAttempted = false ∧
    (100 : Nat) < 2000 ∧
    (bootRun (recoveryEnv 100 50 "user-A" (some (Session.mk "user-A")) none false none
        none none false fetchNever)).recoveryAttempted = true :=
  ⟨trivial, ((session_recovery_amended.1 envNoOps trivial)).1, by decide,
    session_recovery_amended.2.1 100 50 "user-A" (some (Session.mk "user-A")) none false
      none none none false fetchNever (by decide)⟩

/-- C5 counterexample: on a native (non-web) platform the completion marker
is not consulted during boot — with the marker set and a slow profile
query, no placeholder is synthesized, no background fetch is scheduled, and
at 1000ms the bootstrapper is still loading with no profile, contradicting
the claim for every boot sequence with the marker set. -/
theorem fast_path_native_counterexample :
    envNativeMarker.markerValue = true ∧
    envNativeMarker.web = false ∧
    (bootRun envNativeMarker).fastPath = false ∧
    (bootRun envNativeMarker).bgFetchStart = none ∧
    (stateAt (traceOf envNativeMarker) 1000).loading = true ∧
    (stateAt (traceOf envNativeMarker) 1000).profile = none := by decide

/-- C5 amended: on the web platform, a boot that acquires a session for `uid`
at `g` and reads a positive completion marker at `g + m` takes the fast
path: it writes the placeholder profile (completed flag true, hence
IsProfileComplete) and loading false at `g + m`, finishing then, with the
real fetch scheduled in the background at `g + m + 100` — so Ready is
reached before the background profile fetch resolves; at `g + m` the state
already shows loading false and the placeholder. On non-web platforms the
marker is not consulted (see the counterexample). -/
theorem fast_path_web_amended :
    ∀ (g m : Nat) (uid : String) (f : FetchEnv) (pr : Bool) (lu : Option String)
      (rt tt st2 : Option Nat) (rr ssr : Option Session) (tp : Bool),
      g < 2000 →
      (bootRun (fastPathEnv g m uid f pr lu rt tt st2 rr ssr tp)).fastPath = true ∧
      (bootRun (fastPathEnv g m uid f pr lu rt tt st2 rr ssr tp)).finish =
        some (g + m) ∧
      (bootRun (fastPathEnv g m uid f pr lu rt tt st2 rr ssr tp)).bgFetchStart =
        some (g + m + 100) ∧
      (g + m, Write.profile (some (placeholderProfile uid))) ∈
        (bootRun (fastPathEnv g m uid f pr lu rt tt st2 rr ssr tp)).writes ∧
      (g + m, Write.loading false) ∈
        (bootRun (fastPathEnv g m uid f pr lu rt tt st2 rr ssr tp)).writes ∧
      isProfileComplete (some (placeholderProfile uid)) false false = true ∧
      (stateAt (bootRun (fastPathEnv g m uid f pr lu rt tt st2 rr ssr tp)).writes
        (g + m)).loading = false ∧
      (stateAt (bootRun (fastPathEnv g m uid f pr lu rt tt st2 rr ssr tp)).writes
        (g + m)).profile = some (placeholderProfile uid) := by
  intro g m uid f pr lu rt tt st2 rr ssr tp hg
  have hphase : sessionPhase (fastPathEnv g m uid f pr lu rt tt st2 rr ssr tp) =
      (some (g, some (Session.mk uid)), false) := by
    unfold sessionPhase fastPathEnv
    simp [hg]
  have hb : bootRun (fastPathEnv g m uid f pr lu rt tt st2 rr ssr tp) =
      { writes := [(0, Write.loading true), (g, Write.session (some (Session.mk uid))),
          (g, Write.user (some uid)), (g + m, Write.profile (some (placeholderProfile uid))),
          (g + m, Write.loading false)] ++ fetchProfileRun (g + m + 100) f
        clearedAt := some (g + m), finish := some (g + m), recoveryAttempted := false
        fastPath := true, bgFetchStart := some (g + m + 100) } := by
    unfold bootRun
    rw [hphase]
    rfl
  rw [hb]
  refine ⟨rfl, rfl, rfl, by simp, by simp,
    by simp [isProfileComplete, hasCompletedProfile, placeholderProfile, jsTruthyBool], ?_, ?_⟩
  all_goals
    have c0 : decide ((0 : Nat) ≤ g + m) = true := by simp
    have c1 : decide (g ≤ g + m) = true := by simp
    have c2 : decide (g + m ≤ g + m) = true := by simp
    have c3 : decide (g + m + 100 ≤ g + m) = false := by
      simp only [decide_eq_false_iff_not]
      omega
    rcases hf : fetchRunCore (g + m + 100) f with _ | ⟨tEnd, q⟩
  case refine_1.none | refine_2.none =>
    simp only [stateAt, fetchProfileRun, hf, List.filter, List.cons_append,
      List.nil_append, c0, c1, c2, c3]
    rfl
  all_goals
    have htE : g + m + 100 ≤ tEnd := fetchRunCore_time_ge _ _ _ _ hf
    have c4 : decide (tEnd ≤ g + m) = false := by
      simp only [decide_eq_false_iff_not]
      omega
    simp only [stateAt, fetchProfileRun, hf, List.filter, List.cons_append,
      List.nil_append, c0, c1, c2, c3, c4]
    rfl

/-- Witness for C5's amended theorem: a web boot for user U with the marker
set, session at 100ms and marker read at 10ms. -/
theorem fast_path_web_amended_witness :
    (100 : Nat) < 2000 ∧
    (bootRun (fastPathEnv 100 10 "U" fetchNever false none none none none none none
        false)).fastPath = true ∧
    (stateAt (bootRun (fastPathEnv 100 10 "U" fetchNever false none none none none none
        none false)).writes 110).profile = some (placeholderProfile "U") :=
  ⟨by decide,
    (fast_path_web_amended 100 10 "U" fetchNever false none none none none none none
      false (by decide)).1,
    (fast_path_web_amended 100 10 "U" fetchNever false none none none none none none
      false (by decide)).2.2.2.2.2.2.2⟩
